import Mathlib

/-!
# Verification of the barterhex-proxy market-status engine

Shallow embedding of the market-status / delta / pricing logic of the
repository (src/server.js, src/marketStatus.js, src/pricing.js and the
fallback resolver variant in src/unnamed/part_002), together with proofs
of the specified properties.

Prices are modelled as rationals (`ℚ`); the JavaScript numeric rounding
helper `toFixed` is modelled as round-half-up on the scaled value.  The
pricing curve (src/pricing.js), which uses `Math.pow` with a fractional
exponent, is modelled over the reals with `Real.rpow`.
-/

namespace BarterHex

/-- `round2` from src/server.js: `Number(v.toFixed(2))`, modelled as
round-half-up at two decimals. -/
def round2 (v : ℚ) : ℚ := (⌊v * 100 + 1/2⌋ : ℚ) / 100

/-- `round1` from src/server.js: `Number(v.toFixed(1))`, modelled as
round-half-up at one decimal. -/
def round1 (v : ℚ) : ℚ := (⌊v * 10 + 1/2⌋ : ℚ) / 10

/-- `EPS = 1e-6` (src/server.js line 124), float tolerance for price equality. -/
def EPS : ℚ := 1/1000000

/-- `varF = 10` (src/server.js): spot refresh frequency in minutes. -/
def varF : Nat := 10

/-- Default polling interval, `varF * 60 * 1000` milliseconds. -/
def defaultPollMs : Nat := varF * 60 * 1000

/-- Fast-confirm polling interval, `2 * 60 * 1000` milliseconds
(src/server.js line 316). -/
def fastPollMs : Nat := 2 * 60 * 1000

/-- `varH = 0.1` (src/server.js): troy ounces per token. -/
def varH : ℚ := 1/10

/-- The mutable state touched by `fetchSpot` in src/server.js: the cache
fields, the module-level counters `sameCount` / `confirmCount` /
`lastVarS`, and the polling interval.  `Option ℚ` models a field that is
`null` until populated. -/
structure SpotState where
  varMCon : Nat
  sameCount : Nat
  confirmCount : Nat
  lastVarS : Option ℚ
  pollIntervalMs : Nat
  varS : Option ℚ
  varSi : Option ℚ
  varC1 : Option ℚ
  varC1Prev : Option ℚ
  varC30 : Option ℚ
  varC365 : Option ℚ
  varCd : Option ℚ
  varCdp : Option ℚ
  varCm : Option ℚ
  varCmp : Option ℚ
  varCy : Option ℚ
  varCyp : Option ℚ
  varCdSession : Option ℚ
  varCdpSession : Option ℚ
  varCdInitialized : Bool
  deriving Repr, DecidableEq

/-- The market-open/freeze-heuristic section of `fetchSpot`
(src/server.js lines 302-339).  `clockOpen` is the result of
`isMarketOpenByClock()`; `newVarS` is the rounded fresh reading. -/
def statusPhase (clockOpen : Bool) (newVarS : ℚ) (s : SpotState) : SpotState :=
  if clockOpen = false then
    -- MARKET CLOSED LOGIC (lines 303-308): note the polling interval is
    -- NOT touched here.
    { s with varMCon := 0, sameCount := 0, confirmCount := 0, lastVarS := none }
  else if s.varMCon = 1 then
    match s.lastVarS with
    | some last =>
      if |newVarS - last| < EPS then
        -- `sameCount++`; on the 2nd unchanged reading the interval shrinks
        -- to `fastPollMs` (line 316); past the 2nd, `confirmCount++`, and
        -- once `confirmCount ≥ 5` the market is marked frozen and the
        -- interval restored to `defaultPollMs` (lines 321-327).  The
        -- sequential mutations are written as one record update per branch.
        let same := s.sameCount + 1
        let msAfterSame := if same = 2 then fastPollMs else s.pollIntervalMs
        if 2 < same then
          let conf := s.confirmCount + 1
          if 5 ≤ conf then
            { s with sameCount := same, confirmCount := conf,
                     varMCon := 0, pollIntervalMs := defaultPollMs }
          else
            { s with sameCount := same, confirmCount := conf,
                     pollIntervalMs := msAfterSame }
        else
          { s with sameCount := same, pollIntervalMs := msAfterSame }
      else
        { s with varMCon := 1, sameCount := 0, confirmCount := 0,
                 pollIntervalMs := defaultPollMs }
    | none =>
      { s with varMCon := 1, sameCount := 0, confirmCount := 0,
               pollIntervalMs := defaultPollMs }
  else s

/-- Lines 341-343 of src/server.js: record the new reading unconditionally. -/
def recordPhase (newVarS : ℚ) (s : SpotState) : SpotState :=
  { s with lastVarS := some newVarS, varS := some newVarS,
           varSi := some (round2 (newVarS * varH)) }

/-- The 1-day (session) delta section of `fetchSpot` (src/server.js lines
345-372).  The JavaScript guard `if (cache.varC1 && cache.varC1Prev)` is
truthiness: both non-null and non-zero. -/
def sessionDeltaPhase (clockOpen : Bool) (newVarS : ℚ) (s : SpotState) : SpotState :=
  match s.varC1, s.varC1Prev with
  | some c1, some cp =>
    if c1 = 0 ∨ cp = 0 then s
    else
      -- First-tick initialisation (lines 347-355): session reference is
      -- `varC1` while `varMCon = 1`, else `varC1Prev`.
      let ref0 := if s.varMCon = 1 then c1 else cp
      let d0 := round2 (newVarS - ref0)
      let initSess := if s.varCdInitialized = false then some d0 else s.varCdSession
      let initSessP :=
        if s.varCdInitialized = false then some (round1 (d0 / ref0 * 100))
        else s.varCdpSession
      -- Live recompute while open (lines 358-360); while clock-closed,
      -- recompute against the previous close (lines 362-367); while
      -- frozen-but-clock-open, keep the session values.  The sequential
      -- mutations are written as one value per field.
      let sess :=
        if s.varMCon = 1 then some (round2 (newVarS - c1))
        else if clockOpen = false then some (round2 (newVarS - cp))
        else initSess
      let sessP :=
        if s.varMCon = 1 then some (round1 (round2 (newVarS - c1) / c1 * 100))
        else if clockOpen = false then some (round1 (round2 (newVarS - cp) / cp * 100))
        else initSessP
      -- Lines 370-371: publish the session values.
      { s with varCdSession := sess, varCdpSession := sessP,
               varCdInitialized := true, varCd := sess, varCdp := sessP }
  | _, _ => s

/-- The 30-day and 365-day delta sections of `fetchSpot` (src/server.js
lines 374-383), again with JavaScript truthiness guards. -/
def monthYearPhase (newVarS : ℚ) (s : SpotState) : SpotState :=
  -- The two blocks write disjoint fields, so they are combined into a
  -- single record update with one value per field.
  let cm :=
    match s.varC30 with
    | some c30 => if c30 = 0 then s.varCm else some (round2 (newVarS - c30))
    | none => s.varCm
  let cmp :=
    match s.varC30 with
    | some c30 =>
      if c30 = 0 then s.varCmp
      else some (round1 (round2 (newVarS - c30) / c30 * 100))
    | none => s.varCmp
  let cy :=
    match s.varC365 with
    | some c365 => if c365 = 0 then s.varCy else some (round2 (newVarS - c365))
    | none => s.varCy
  let cyp :=
    match s.varC365 with
    | some c365 =>
      if c365 = 0 then s.varCyp
      else some (round1 (round2 (newVarS - c365) / c365 * 100))
    | none => s.varCyp
  { s with varCm := cm, varCmp := cmp, varCy := cy, varCyp := cyp }

/-- One tick of `fetchSpot` (src/server.js lines 285-386).  `price` is the
parsed feed payload: `none` models both a fetch error and a non-numeric
`data?.rate?.price` (the code returns before any mutation in that case,
line 295). -/
def fetchSpotStep (clockOpen : Bool) (price : Option ℚ) (s : SpotState) : SpotState :=
  match price with
  | none => s
  | some S =>
    let newVarS := round2 S
    let s1 := statusPhase clockOpen newVarS s
    let s2 := recordPhase newVarS s1
    let s3 := sessionDeltaPhase clockOpen newVarS s2
    monthYearPhase newVarS s3

/-! ## The four-state machine of src/marketStatus.js -/

/-- `MARKET_CLOSED = 0` (src/marketStatus.js line 15). -/
def MARKET_CLOSED : Nat := 0

/-- `MARKET_OPEN = 1` (src/marketStatus.js line 16). -/
def MARKET_OPEN : Nat := 1

/-- `MARKET_BREAK = 2` (src/marketStatus.js line 17). -/
def MARKET_BREAK : Nat := 2

/-- `MARKET_FREEZE = 3` (src/marketStatus.js line 18). -/
def MARKET_FREEZE : Nat := 3

/-- The cache fields read/written by `updateMarketStatus`
(src/marketStatus.js). -/
structure MState where
  varMStatus : Nat
  varS : Option ℚ
  alertmode : Nat
  deriving Repr, DecidableEq

/-- `updateMarketStatus` (src/marketStatus.js lines 128-164).
`scheduled` is the value of `getScheduledMarketStatus()` at the tick.
The asynchronous `lookForSurpriseClosure` probe it may launch is modelled
only by its immediate effect (`alertmode := 1`); its delayed callback is
outside a single synchronous tick. -/
def updateMarketStatus (scheduled : Nat) (s : MState) (currentSpot : Option ℚ) : MState :=
  if s.varMStatus = MARKET_FREEZE then
    if s.varS ≠ currentSpot ∧ scheduled ≠ MARKET_CLOSED then
      { s with varMStatus := MARKET_OPEN }
    else if scheduled = MARKET_CLOSED then
      { s with varMStatus := MARKET_CLOSED }
    else s
  else
    let s1 :=
      if scheduled = MARKET_OPEN ∧ s.varS = currentSpot ∧ s.alertmode = 0 then
        { s with alertmode := 1 }
      else s
    { s1 with varMStatus := scheduled }

/-! ## Reference-close resolver with bounded fallback -/

/-- The loop body of `fetchCloseWithFallback`: try `feed daysAgo`,
`feed (daysAgo+1)`, …, walking `fuel` extra days back, first finite value
wins.  `feed d` models `fetchCloseForDate (dateMinus d)`: `some v` when
the feed has a finite close `v` for the date `d` days ago, else `none`. -/
def searchBack (feed : Nat → Option ℚ) (daysAgo : Nat) : Nat → Option ℚ
  | 0 => feed daysAgo
  | n + 1 =>
    match feed daysAgo with
    | some v => some v
    | none => searchBack feed (daysAgo + 1) n

/-- `fetchCloseWithFallback` (src/server.js lines 222-228, `maxBack = 7`;
the variant in src/unnamed/part_002 lines 211-228 is identical with
`maxLookback = 10`): the loop `for i = 0 … maxBack` returning the first
finite `fetchCloseForDate (dateMinus (daysAgo + i))`, else `null`. -/
def fetchCloseWithFallback (feed : Nat → Option ℚ) (daysAgo : Nat)
    (maxBack : Nat) : Option ℚ :=
  searchBack feed daysAgo maxBack

/-! ## Median / dedupe of the close series -/

/-- `dedupeConsecutive` (src/server.js lines 171-173): keep an element iff
it is the first or differs from its immediate predecessor in the original
array. -/
def dedupeConsecutive : List ℚ → List ℚ
  | [] => []
  | x :: xs => x :: dedupeTail x xs
where
  /-- Tail recursion carrying the original predecessor. -/
  dedupeTail : ℚ → List ℚ → List ℚ
  | _, [] => []
  | prev, y :: t => if y = prev then dedupeTail y t else y :: dedupeTail y t

/-- `median` (src/server.js lines 164-168): sort ascending; odd length →
the middle element `a[(n-1)/2]`; even length →
`Math.max(a[n/2 - 1], a[n/2])`.  JavaScript's out-of-range index for the
empty array is modelled by the `getD _ 0` default. -/
def median (arr : List ℚ) : ℚ :=
  let a := arr.insertionSort (· ≤ ·)
  let n := a.length
  if n % 2 = 1 then a.getD ((n - 1) / 2) 0
  else max (a.getD (n / 2 - 1) 0) (a.getD (n / 2) 0)

/-! ## Timezone-offset handling (src/server.js lines 131-142)

A calendar date is a triple `(year, month, day)` with JavaScript's
0-based months.  `tzOff` abstracts the host's
`Date.prototype.getTimezoneOffset` (minutes west of UTC at the given
local date). -/

/-- `getEasternOffset` (src/server.js lines 131-135): builds Jan 1 and
Jul 1 of the argument's **year** and returns the larger of the host
offsets there.  The month and day of the argument are never consulted. -/
def getEasternOffset (tzOff : Nat × Nat × Nat → Int) (date : Nat × Nat × Nat) : Int :=
  max (tzOff (date.1, 0, 1)) (tzOff (date.1, 6, 1))

/-- `toET` (src/server.js lines 138-142): shift a UTC instant (minutes)
by `getEasternOffset` minutes for the instant's calendar date. -/
def toET (tzOff : Nat × Nat × Nat → Int) (date : Nat × Nat × Nat)
    (minutesUTC : Int) : Int :=
  minutesUTC + getEasternOffset tzOff date

/-- The real 2024 America/New_York offset table (minutes west of UTC),
at day granularity: standard time 300, daylight-saving time 240; DST ran
from March 10 to November 3, 2024 (months 0-based). -/
def nyOffset2024 (date : Nat × Nat × Nat) : Int :=
  if date.1 = 2024 then
    if 2 < date.2.1 ∧ date.2.1 < 10 then 240
    else if date.2.1 = 2 then (if 10 ≤ date.2.2 then 240 else 300)
    else if date.2.1 = 10 then (if date.2.2 < 3 then 240 else 300)
    else 300
  else 300

/-! ## Pricing curve (src/pricing.js) -/

/-- `varA = 35.0`: premium %, no discount (src/pricing.js line 3). -/
def varA : ℝ := 35

/-- `varB = 15.0`: premium %, max discount (src/pricing.js line 4). -/
def varB : ℝ := 15

/-- `varCq = 50`: quantity for max discount (`varC` in src/pricing.js
line 5; renamed to avoid clashing with the close caches). -/
def varCq : ℝ := 50

/-- `varD = 1`: quantity for no discount (src/pricing.js line 6). -/
def varD : ℝ := 1

/-- `varX = 2.2`: discount curve exponent (src/pricing.js line 7). -/
def varX : ℝ := 2.2

/-- `computeVarPf` (src/pricing.js lines 19-40): clamp at the quantity
bounds, otherwise interpolate the premium from `varA`% down to `varB`%
along the curve `1 - (1 - t) ^ varX`; `Math.pow` on a base in `[0, 1]`
is modelled by `Real.rpow`. -/
noncomputable def computeVarPf (varQ : ℝ) : ℝ :=
  if varQ ≤ varD then varA / 100
  else if varCq ≤ varQ then varB / 100
  else
    -- t = (varQ - varD) / (varCq - varD); curve = 1 - (1 - t) ^ varX
    (varA - (varA - varB) * (1 - (1 - (varQ - varD) / (varCq - varD)) ^ varX)) / 100

/-! ## Helper lemmas: which fields each phase leaves untouched -/

/-- `statusPhase` touches only the status/counter/interval fields: the
reference caches and all delta fields pass through unchanged. -/
theorem statusPhase_preserves (co : Bool) (v : ℚ) (s : SpotState) :
    (statusPhase co v s).varC1 = s.varC1 ∧
    (statusPhase co v s).varC1Prev = s.varC1Prev ∧
    (statusPhase co v s).varC30 = s.varC30 ∧
    (statusPhase co v s).varC365 = s.varC365 ∧
    (statusPhase co v s).varCd = s.varCd ∧
    (statusPhase co v s).varCdp = s.varCdp ∧
    (statusPhase co v s).varCm = s.varCm ∧
    (statusPhase co v s).varCmp = s.varCmp ∧
    (statusPhase co v s).varCy = s.varCy ∧
    (statusPhase co v s).varCyp = s.varCyp ∧
    (statusPhase co v s).varCdSession = s.varCdSession ∧
    (statusPhase co v s).varCdpSession = s.varCdpSession ∧
    (statusPhase co v s).varCdInitialized = s.varCdInitialized ∧
    (statusPhase co v s).varS = s.varS ∧
    (statusPhase co v s).varSi = s.varSi := by
  unfold statusPhase
  repeat' split
  all_goals simp [apply_ite]

/-- `sessionDeltaPhase` touches only the session-delta fields. -/
theorem sessionDeltaPhase_preserves (co : Bool) (v : ℚ) (s : SpotState) :
    (sessionDeltaPhase co v s).varMCon = s.varMCon ∧
    (sessionDeltaPhase co v s).sameCount = s.sameCount ∧
    (sessionDeltaPhase co v s).confirmCount = s.confirmCount ∧
    (sessionDeltaPhase co v s).lastVarS = s.lastVarS ∧
    (sessionDeltaPhase co v s).pollIntervalMs = s.pollIntervalMs ∧
    (sessionDeltaPhase co v s).varS = s.varS ∧
    (sessionDeltaPhase co v s).varSi = s.varSi ∧
    (sessionDeltaPhase co v s).varC1 = s.varC1 ∧
    (sessionDeltaPhase co v s).varC1Prev = s.varC1Prev ∧
    (sessionDeltaPhase co v s).varC30 = s.varC30 ∧
    (sessionDeltaPhase co v s).varC365 = s.varC365 ∧
    (sessionDeltaPhase co v s).varCm = s.varCm ∧
    (sessionDeltaPhase co v s).varCmp = s.varCmp ∧
    (sessionDeltaPhase co v s).varCy = s.varCy ∧
    (sessionDeltaPhase co v s).varCyp = s.varCyp := by
  unfold sessionDeltaPhase
  repeat' split
  all_goals simp [apply_ite]

/-- `monthYearPhase` touches only the 30-day / 365-day delta fields. -/
theorem monthYearPhase_preserves (v : ℚ) (s : SpotState) :
    (monthYearPhase v s).varMCon = s.varMCon ∧
    (monthYearPhase v s).sameCount = s.sameCount ∧
    (monthYearPhase v s).confirmCount = s.confirmCount ∧
    (monthYearPhase v s).lastVarS = s.lastVarS ∧
    (monthYearPhase v s).pollIntervalMs = s.pollIntervalMs ∧
    (monthYearPhase v s).varS = s.varS ∧
    (monthYearPhase v s).varSi = s.varSi ∧
    (monthYearPhase v s).varC1 = s.varC1 ∧
    (monthYearPhase v s).varC1Prev = s.varC1Prev ∧
    (monthYearPhase v s).varC30 = s.varC30 ∧
    (monthYearPhase v s).varC365 = s.varC365 ∧
    (monthYearPhase v s).varCd = s.varCd ∧
    (monthYearPhase v s).varCdp = s.varCdp ∧
    (monthYearPhase v s).varCdSession = s.varCdSession ∧
    (monthYearPhase v s).varCdpSession = s.varCdpSession ∧
    (monthYearPhase v s).varCdInitialized = s.varCdInitialized := by
  unfold monthYearPhase
  simp

/-- The 30-day / 365-day outputs of `monthYearPhase`. -/
theorem monthYearPhase_outputs (v : ℚ) (s : SpotState) :
    (s.varC30 = none →
      (monthYearPhase v s).varCm = s.varCm ∧
      (monthYearPhase v s).varCmp = s.varCmp) ∧
    (∀ c30 : ℚ, s.varC30 = some c30 → c30 ≠ 0 →
      (monthYearPhase v s).varCm = some (round2 (v - c30)) ∧
      (monthYearPhase v s).varCmp = some (round1 (round2 (v - c30) / c30 * 100))) ∧
    (s.varC365 = none →
      (monthYearPhase v s).varCy = s.varCy ∧
      (monthYearPhase v s).varCyp = s.varCyp) ∧
    (∀ c365 : ℚ, s.varC365 = some c365 → c365 ≠ 0 →
      (monthYearPhase v s).varCy = some (round2 (v - c365)) ∧
      (monthYearPhase v s).varCyp = some (round1 (round2 (v - c365) / c365 * 100))) := by
  unfold monthYearPhase
  refine ⟨fun h => ?_, fun c30 h hz => ?_, fun h => ?_, fun c365 h hz => ?_⟩
  · simp [h]
  · simp [h, hz]
  · simp [h]
  · simp [h, hz]

/-! ## C1, C3, C7: closed-clock and failure semantics -/

/-- C1: after any status-update tick executed at an instant whose
scheduled status is CLOSED, the published market status is CLOSED, for
every prior state — in particular a prior FROZEN status — and any
counter values.  First conjunct: the four-state machine of
src/marketStatus.js; second conjunct: the `varMCon` flag maintained by
`fetchSpot` in src/server.js. -/
theorem C1_scheduled_closed_forces_closed :
    (∀ (s : MState) (spot : Option ℚ),
      (updateMarketStatus MARKET_CLOSED s spot).varMStatus = MARKET_CLOSED) ∧
    (∀ (s : SpotState) (p : ℚ),
      (fetchSpotStep false (some p) s).varMCon = 0) := by
  constructor
  · intro s spot
    unfold updateMarketStatus
    by_cases h : s.varMStatus = MARKET_FREEZE <;>
      simp [h, MARKET_CLOSED, MARKET_OPEN, MARKET_FREEZE]
  · intro s p
    show (monthYearPhase _ (sessionDeltaPhase _ _ (recordPhase _ (statusPhase false _ s)))).varMCon = 0
    rw [(monthYearPhase_preserves _ _).1, (sessionDeltaPhase_preserves _ _ _).1]
    unfold recordPhase statusPhase
    simp

/-- On a clock-closed tick, `statusPhase` zeroes the flag, the counters
and the last reading, and touches nothing else — in particular not the
polling interval. -/
theorem statusPhase_closed (v : ℚ) (s : SpotState) :
    statusPhase false v s =
      { s with varMCon := 0, sameCount := 0, confirmCount := 0, lastVarS := none } := by
  unfold statusPhase
  simp

/-- The status/counter/interval fields of a whole successful tick are
those produced by `statusPhase`: the later phases do not touch them. -/
theorem fetchSpotStep_statusFields (co : Bool) (p : ℚ) (s : SpotState) :
    (fetchSpotStep co (some p) s).varMCon = (statusPhase co (round2 p) s).varMCon ∧
    (fetchSpotStep co (some p) s).sameCount = (statusPhase co (round2 p) s).sameCount ∧
    (fetchSpotStep co (some p) s).confirmCount = (statusPhase co (round2 p) s).confirmCount ∧
    (fetchSpotStep co (some p) s).pollIntervalMs = (statusPhase co (round2 p) s).pollIntervalMs := by
  obtain ⟨hm1, hm2, hm3, -, hm5, -⟩ :=
    monthYearPhase_preserves (round2 p)
      (sessionDeltaPhase co (round2 p) (recordPhase (round2 p) (statusPhase co (round2 p) s)))
  obtain ⟨hs1, hs2, hs3, -, hs5, -⟩ :=
    sessionDeltaPhase_preserves co (round2 p) (recordPhase (round2 p) (statusPhase co (round2 p) s))
  unfold fetchSpotStep
  exact ⟨by rw [hm1, hs1]; rfl, by rw [hm2, hs2]; rfl,
         by rw [hm3, hs3]; rfl, by rw [hm5, hs5]; rfl⟩

/-- A concrete prior state whose polling interval sits at the
fast-confirm value when a clock-closed tick arrives. -/
def closedTickPriorState : SpotState :=
  { varMCon := 1, sameCount := 2, confirmCount := 0, lastVarS := some 30,
    pollIntervalMs := fastPollMs, varS := some 30, varSi := none,
    varC1 := none, varC1Prev := none, varC30 := none, varC365 := none,
    varCd := none, varCdp := none, varCm := none, varCmp := none,
    varCy := none, varCyp := none, varCdSession := none,
    varCdpSession := none, varCdInitialized := false }

/-- C3 counterexample: a clock-closed tick taken while the polling
interval sits at the fast-confirm value leaves the interval at that
value — `fetchSpot`'s closed branch (src/server.js lines 303-308) never
resets `pollIntervalMs` — so the claim that every scheduled-closed tick
resets the interval to its default is false. -/
theorem C3_closed_tick_interval_not_reset :
    (fetchSpotStep false (some 30) closedTickPriorState).pollIntervalMs = fastPollMs ∧
    fastPollMs ≠ defaultPollMs := by
  constructor
  · rw [(fetchSpotStep_statusFields false 30 closedTickPriorState).2.2.2,
        statusPhase_closed]
    rfl
  · decide

/-- C3 as amended: every tick whose scheduled status is CLOSED forces the
published status to CLOSED and resets both confirmation counters to zero,
but leaves the polling interval exactly as it was (the closed branch never
touches `pollIntervalMs`). -/
theorem C3_closed_tick_effects (s : SpotState) (p : ℚ) :
    (fetchSpotStep false (some p) s).varMCon = 0 ∧
    (fetchSpotStep false (some p) s).sameCount = 0 ∧
    (fetchSpotStep false (some p) s).confirmCount = 0 ∧
    (fetchSpotStep false (some p) s).pollIntervalMs = s.pollIntervalMs := by
  obtain ⟨h1, h2, h3, h4⟩ := fetchSpotStep_statusFields false p s
  rw [h1, h2, h3, h4, statusPhase_closed]
  exact ⟨rfl, rfl, rfl, rfl⟩

/-- C7: a spot tick whose fetch fails or parses to a non-numeric price is
a no-op — the whole state (status flag, counters, interval, cached
reading, every delta field) is exactly what it was. -/
theorem C7_failed_fetch_is_noop (co : Bool) (s : SpotState) :
    fetchSpotStep co none s = s := rfl

/-! ## C4: leaving FROZEN on a price change -/

/-- A frozen prior state for the C4 counterexample: last recorded spot 10. -/
def frozenBreakPrior : MState :=
  { varMStatus := MARKET_FREEZE, varS := some 10, alertmode := 0 }

/-- C4 counterexample: with the machine FROZEN, the scheduled status
BREAK and a differing fresh reading (10 → 11), `updateMarketStatus` sets
the status to OPEN (src/marketStatus.js line 137 hard-codes
`MARKET_OPEN`), not to the scheduled status BREAK as claimed. -/
theorem C4_freeze_exit_break_counterexample :
    (updateMarketStatus MARKET_BREAK frozenBreakPrior (some 11)).varMStatus = MARKET_OPEN ∧
    (updateMarketStatus MARKET_BREAK frozenBreakPrior (some 11)).varMStatus ≠ MARKET_BREAK := by
  constructor
  · rfl
  · decide

/-- C4 as amended: from a FROZEN state with scheduled status OPEN or
BREAK, a tick whose reading differs from the last recorded one sets the
status to OPEN on that same tick — always OPEN, even when the scheduled
status is BREAK — regardless of any counters. -/
theorem C4_freeze_exit_sets_open (sched : Nat) (s : MState) (spot : Option ℚ)
    (hfrozen : s.varMStatus = MARKET_FREEZE)
    (hsched : sched = MARKET_OPEN ∨ sched = MARKET_BREAK)
    (hdiff : s.varS ≠ spot) :
    (updateMarketStatus sched s spot).varMStatus = MARKET_OPEN := by
  unfold updateMarketStatus
  rcases hsched with h | h <;> subst h <;>
    simp [hfrozen, hdiff, MARKET_OPEN, MARKET_BREAK, MARKET_CLOSED, MARKET_FREEZE]

/-- Witness for the amended C4 at a concrete frozen state with scheduled
status OPEN and readings 10 → 12. -/
theorem C4_freeze_exit_sets_open_witness :
    (updateMarketStatus MARKET_OPEN
      { varMStatus := MARKET_FREEZE, varS := some 10, alertmode := 0 }
      (some 12)).varMStatus = MARKET_OPEN :=
  C4_freeze_exit_sets_open MARKET_OPEN
    { varMStatus := MARKET_FREEZE, varS := some 10, alertmode := 0 }
    (some 12) rfl (Or.inl rfl) (by decide)

/-! ## C2: the 2-then-5 freeze-confirmation scenario -/

/-- A steady-state of the `fetchSpot` machine during the constant-price
scenario: last reading `round2 p` recorded, no reference closes cached,
with the given status flag, counters and interval. -/
def fzState (p : ℚ) (mcon same conf intervalMs : Nat) : SpotState :=
  { varMCon := mcon, sameCount := same, confirmCount := conf,
    lastVarS := some (round2 p), pollIntervalMs := intervalMs,
    varS := some (round2 p), varSi := some (round2 (round2 p * varH)),
    varC1 := none, varC1Prev := none, varC30 := none, varC365 := none,
    varCd := none, varCdp := none, varCm := none, varCmp := none,
    varCy := none, varCyp := none, varCdSession := none,
    varCdpSession := none, varCdInitialized := false }

/-- Tick 1 of the scenario: first unchanged reading, `sameCount` 0 → 1. -/
theorem fzStep1 (p : ℚ) :
    fetchSpotStep true (some p) (fzState p 1 0 0 defaultPollMs) =
      fzState p 1 1 0 defaultPollMs := by
  unfold fetchSpotStep statusPhase recordPhase sessionDeltaPhase monthYearPhase fzState
  norm_num [EPS]

/-- Tick 2: second unchanged reading, the interval shrinks to the
fast-confirm value. -/
theorem fzStep2 (p : ℚ) :
    fetchSpotStep true (some p) (fzState p 1 1 0 defaultPollMs) =
      fzState p 1 2 0 fastPollMs := by
  unfold fetchSpotStep statusPhase recordPhase sessionDeltaPhase monthYearPhase fzState
  norm_num [EPS]

/-- Tick 3: `confirmCount` 0 → 1, still published open, still fast. -/
theorem fzStep3 (p : ℚ) :
    fetchSpotStep true (some p) (fzState p 1 2 0 fastPollMs) =
      fzState p 1 3 1 fastPollMs := by
  unfold fetchSpotStep statusPhase recordPhase sessionDeltaPhase monthYearPhase fzState
  norm_num [EPS]

/-- Tick 4: `confirmCount` 1 → 2. -/
theorem fzStep4 (p : ℚ) :
    fetchSpotStep true (some p) (fzState p 1 3 1 fastPollMs) =
      fzState p 1 4 2 fastPollMs := by
  unfold fetchSpotStep statusPhase recordPhase sessionDeltaPhase monthYearPhase fzState
  norm_num [EPS]

/-- Tick 5: `confirmCount` 2 → 3. -/
theorem fzStep5 (p : ℚ) :
    fetchSpotStep true (some p) (fzState p 1 4 2 fastPollMs) =
      fzState p 1 5 3 fastPollMs := by
  unfold fetchSpotStep statusPhase recordPhase sessionDeltaPhase monthYearPhase fzState
  norm_num [EPS]

/-- Tick 6: `confirmCount` 3 → 4. -/
theorem fzStep6 (p : ℚ) :
    fetchSpotStep true (some p) (fzState p 1 5 3 fastPollMs) =
      fzState p 1 6 4 fastPollMs := by
  unfold fetchSpotStep statusPhase recordPhase sessionDeltaPhase monthYearPhase fzState
  norm_num [EPS]

/-- Tick 7: `confirmCount` reaches 5 — frozen, interval back to default. -/
theorem fzStep7 (p : ℚ) :
    fetchSpotStep true (some p) (fzState p 1 6 4 fastPollMs) =
      fzState p 0 7 5 defaultPollMs := by
  unfold fetchSpotStep statusPhase recordPhase sessionDeltaPhase monthYearPhase fzState
  norm_num [EPS]

/-- C2: starting clock-open with both counters at zero and every tick
returning the same price, the polling interval switches to the
fast-confirm (2-minute) value on the 2nd consecutive unchanged reading,
the published status first leaves OPEN exactly on the tick where the
confirmation counter reaches 5 — the 7th identical reading — and that
same tick restores the default interval. -/
theorem C2_two_then_five_freeze (p : ℚ) :
    ((fetchSpotStep true (some p))^[1] (fzState p 1 0 0 defaultPollMs)).pollIntervalMs
        = defaultPollMs ∧
    ((fetchSpotStep true (some p))^[2] (fzState p 1 0 0 defaultPollMs)).pollIntervalMs
        = fastPollMs ∧
    ((fetchSpotStep true (some p))^[1] (fzState p 1 0 0 defaultPollMs)).varMCon = 1 ∧
    ((fetchSpotStep true (some p))^[2] (fzState p 1 0 0 defaultPollMs)).varMCon = 1 ∧
    ((fetchSpotStep true (some p))^[3] (fzState p 1 0 0 defaultPollMs)).varMCon = 1 ∧
    ((fetchSpotStep true (some p))^[4] (fzState p 1 0 0 defaultPollMs)).varMCon = 1 ∧
    ((fetchSpotStep true (some p))^[5] (fzState p 1 0 0 defaultPollMs)).varMCon = 1 ∧
    ((fetchSpotStep true (some p))^[6] (fzState p 1 0 0 defaultPollMs)).varMCon = 1 ∧
    ((fetchSpotStep true (some p))^[6] (fzState p 1 0 0 defaultPollMs)).confirmCount = 4 ∧
    ((fetchSpotStep true (some p))^[6] (fzState p 1 0 0 defaultPollMs)).pollIntervalMs
        = fastPollMs ∧
    ((fetchSpotStep true (some p))^[7] (fzState p 1 0 0 defaultPollMs)).varMCon = 0 ∧
    ((fetchSpotStep true (some p))^[7] (fzState p 1 0 0 defaultPollMs)).confirmCount = 5 ∧
    ((fetchSpotStep true (some p))^[7] (fzState p 1 0 0 defaultPollMs)).pollIntervalMs
        = defaultPollMs := by
  have h1 : (fetchSpotStep true (some p))^[1] (fzState p 1 0 0 defaultPollMs)
      = fzState p 1 1 0 defaultPollMs := by
    rw [Function.iterate_one]; exact fzStep1 p
  have h2 : (fetchSpotStep true (some p))^[2] (fzState p 1 0 0 defaultPollMs)
      = fzState p 1 2 0 fastPollMs := by
    rw [Function.iterate_succ_apply', h1]; exact fzStep2 p
  have h3 : (fetchSpotStep true (some p))^[3] (fzState p 1 0 0 defaultPollMs)
      = fzState p 1 3 1 fastPollMs := by
    rw [Function.iterate_succ_apply', h2]; exact fzStep3 p
  have h4 : (fetchSpotStep true (some p))^[4] (fzState p 1 0 0 defaultPollMs)
      = fzState p 1 4 2 fastPollMs := by
    rw [Function.iterate_succ_apply', h3]; exact fzStep4 p
  have h5 : (fetchSpotStep true (some p))^[5] (fzState p 1 0 0 defaultPollMs)
      = fzState p 1 5 3 fastPollMs := by
    rw [Function.iterate_succ_apply', h4]; exact fzStep5 p
  have h6 : (fetchSpotStep true (some p))^[6] (fzState p 1 0 0 defaultPollMs)
      = fzState p 1 6 4 fastPollMs := by
    rw [Function.iterate_succ_apply', h5]; exact fzStep6 p
  have h7 : (fetchSpotStep true (some p))^[7] (fzState p 1 0 0 defaultPollMs)
      = fzState p 0 7 5 defaultPollMs := by
    rw [Function.iterate_succ_apply', h6]; exact fzStep7 p
  rw [h1, h2, h3, h4, h5, h6, h7]
  exact ⟨rfl, rfl, rfl, rfl, rfl, rfl, rfl, rfl, rfl, rfl, rfl, rfl, rfl⟩

/-! ## C6: bounded-fallback resolution -/

/-- `searchBack` exhausts to `none` exactly when no date in the window
`daysAgo … daysAgo + fuel` has a value. -/
theorem searchBack_none_iff (feed : Nat → Option ℚ) :
    ∀ (fuel d : Nat),
      (searchBack feed d fuel = none ↔ ∀ i, i ≤ fuel → feed (d + i) = none)
  | 0, d => by
    simp only [searchBack, Nat.le_zero]
    constructor
    · intro h i hi
      subst hi
      simpa using h
    · intro h
      simpa using h 0 rfl
  | fuel + 1, d => by
    simp only [searchBack]
    cases h : feed d with
    | some v =>
      simp only [h]
      constructor
      · intro hc
        cases hc
      · intro hall
        have h0 := hall 0 (Nat.zero_le _)
        rw [Nat.add_zero] at h0
        rw [h0] at h
        cases h
    | none =>
      simp only [h]
      rw [searchBack_none_iff feed fuel (d + 1)]
      constructor
      · intro hall i hi
        cases i with
        | zero => simpa using h
        | succ j =>
          have := hall j (by omega)
          have e : d + 1 + j = d + (j + 1) := by omega
          rwa [e] at this
      · intro hall i hi
        have := hall (i + 1) (by omega)
        have e : d + (i + 1) = d + 1 + i := by omega
        rwa [e] at this

/-- When `searchBack` returns a value, it is the feed's value at the
smallest offset inside the window that has one. -/
theorem searchBack_some_nearest (feed : Nat → Option ℚ) :
    ∀ (fuel d : Nat) (v : ℚ),
      searchBack feed d fuel = some v →
      ∃ i, i ≤ fuel ∧ feed (d + i) = some v ∧ ∀ j, j < i → feed (d + j) = none
  | 0, d, v => by
    intro h
    refine ⟨0, le_rfl, by simpa using h, fun j hj => absurd hj (by omega)⟩
  | fuel + 1, d, v => by
    simp only [searchBack]
    cases h : feed d with
    | some w =>
      intro hv
      obtain rfl : w = v := by simpa using hv
      exact ⟨0, Nat.zero_le _, by simpa using h, fun j hj => absurd hj (by omega)⟩
    | none =>
      intro hv
      obtain ⟨i, hi, hfeed, hmin⟩ := searchBack_some_nearest feed fuel (d + 1) v hv
      refine ⟨i + 1, by omega, ?_, ?_⟩
      · have e : d + (i + 1) = d + 1 + i := by omega
        rwa [e]
      · intro j hj
        cases j with
        | zero => simpa using h
        | succ k =>
          have := hmin k (by omega)
          have e : d + 1 + k = d + (k + 1) := by omega
          rwa [e] at this

/-- C6: for every feed, horizon and lookback bound, the resolver returns
the close of the nearest date at or before `today − daysAgo` holding a
value, provided that date lies within `maxBack` days of the horizon
date; and it returns `none` (unresolved) exactly when no date in that
bounded range has a value.  Offsets count days further back:
`feed (daysAgo + i)` is the close `i` days before the horizon date. -/
theorem C6_fallback_nearest_within_bound (feed : Nat → Option ℚ)
    (daysAgo maxBack : Nat) :
    (fetchCloseWithFallback feed daysAgo maxBack = none ↔
      ∀ i, i ≤ maxBack → feed (daysAgo + i) = none) ∧
    (∀ v, fetchCloseWithFallback feed daysAgo maxBack = some v →
      ∃ i, i ≤ maxBack ∧ feed (daysAgo + i) = some v ∧
        ∀ j, j < i → feed (daysAgo + j) = none) :=
  ⟨searchBack_none_iff feed maxBack daysAgo,
   fun v => searchBack_some_nearest feed maxBack daysAgo v⟩

/-! ## C9: median tie-break -/

/-- An in-range `getD` of the sorted list is a member of the original. -/
theorem getD_insertionSort_mem (l : List ℚ) (i : Nat)
    (h : i < l.length) : (l.insertionSort (· ≤ ·)).getD i 0 ∈ l := by
  have hlen : (l.insertionSort (· ≤ ·)).length = l.length :=
    List.length_insertionSort _ l
  have h' : i < (l.insertionSort (· ≤ ·)).length := by rw [hlen]; exact h
  rw [List.getD_eq_getElem _ _ h']
  exact (List.perm_insertionSort (· ≤ ·) l).subset (List.getElem_mem h')

/-- C9: the median over the deduplicated close series takes, for an
even-length list, the larger of the two central values of the sorted
list — for `[10, 12, 14, 16]` the value `14`, not the mean `13` — and
for an odd-length list the middle element; in both cases the result is
an element of the list. -/
theorem C9_median_tiebreak :
    median [10, 12, 14, 16] = 14 ∧
    median [10, 12, 14, 16] ≠ 13 ∧
    (∀ l : List ℚ, l ≠ [] → l.length % 2 = 0 →
      median l = max ((l.insertionSort (· ≤ ·)).getD (l.length / 2 - 1) 0)
                     ((l.insertionSort (· ≤ ·)).getD (l.length / 2) 0) ∧
      median l ∈ l) ∧
    (∀ l : List ℚ, l.length % 2 = 1 →
      median l = (l.insertionSort (· ≤ ·)).getD ((l.length - 1) / 2) 0 ∧
      median l ∈ l) := by
  refine ⟨by norm_num [median, List.insertionSort, List.orderedInsert],
          by norm_num [median, List.insertionSort, List.orderedInsert],
          fun l hne heven => ?_, fun l hodd => ?_⟩
  · have hlen : (l.insertionSort (· ≤ ·)).length = l.length :=
      List.length_insertionSort _ l
    have hpos : 0 < l.length := List.length_pos.mpr hne
    have hmed : median l
        = max ((l.insertionSort (· ≤ ·)).getD (l.length / 2 - 1) 0)
              ((l.insertionSort (· ≤ ·)).getD (l.length / 2) 0) := by
      simp only [median]
      rw [hlen, if_neg (by omega)]
    refine ⟨hmed, ?_⟩
    rw [hmed]
    rcases max_choice ((l.insertionSort (· ≤ ·)).getD (l.length / 2 - 1) 0)
        ((l.insertionSort (· ≤ ·)).getD (l.length / 2) 0) with h | h <;> rw [h]
    · exact getD_insertionSort_mem l _ (by omega)
    · exact getD_insertionSort_mem l _ (by omega)
  · have hlen : (l.insertionSort (· ≤ ·)).length = l.length :=
      List.length_insertionSort _ l
    have hpos : 0 < l.length := by omega
    have hmed : median l = (l.insertionSort (· ≤ ·)).getD ((l.length - 1) / 2) 0 := by
      simp only [median]
      rw [hlen, if_pos hodd]
    refine ⟨hmed, ?_⟩
    rw [hmed]
    exact getD_insertionSort_mem l _ (by omega)

/-! ## C8: per-horizon delta recomputation and frame -/

/-- The session outputs of `sessionDeltaPhase`: identity when either
session reference is missing (or zero, by JavaScript truthiness);
otherwise the published delta follows `varC1` while the flag is open and
`varC1Prev` while the clock is closed. -/
theorem sessionDeltaPhase_outputs (co : Bool) (v : ℚ) (s : SpotState) :
    ((s.varC1 = none ∨ s.varC1Prev = none) → sessionDeltaPhase co v s = s) ∧
    (∀ c1 cp : ℚ, s.varC1 = some c1 → s.varC1Prev = some cp → c1 ≠ 0 → cp ≠ 0 →
      (s.varMCon = 1 →
        (sessionDeltaPhase co v s).varCd = some (round2 (v - c1)) ∧
        (sessionDeltaPhase co v s).varCdp
          = some (round1 (round2 (v - c1) / c1 * 100))) ∧
      (s.varMCon ≠ 1 → co = false →
        (sessionDeltaPhase co v s).varCd = some (round2 (v - cp)) ∧
        (sessionDeltaPhase co v s).varCdp
          = some (round1 (round2 (v - cp) / cp * 100)))) := by
  constructor
  · intro h
    unfold sessionDeltaPhase
    rcases h1 : s.varC1 with _ | c1 <;> rcases h2 : s.varC1Prev with _ | cp <;>
      simp [h1, h2]
    rcases h with h | h
    · rw [h1] at h; cases h
    · rw [h2] at h; cases h
  · intro c1 cp h1 h2 hz1 hz2
    unfold sessionDeltaPhase
    simp only [h1, h2]
    rw [if_neg (by simp [hz1, hz2])]
    constructor
    · intro hm
      simp [hm]
    · intro hm hco
      simp [hm, hco]

/-- C8: on a successful tick, each horizon's delta pair is recomputed
from the rounded spot and its own reference exactly when that reference
is resolved (non-null, non-zero); an unresolved reference leaves that
horizon's previous values untouched, independently of the other
horizons.  The session pair follows `varC1` when the tick ends with the
market flagged open and `varC1Prev` when the clock says closed, and is
untouched when either session reference is missing. -/
theorem C8_delta_frame (co : Bool) (p : ℚ) (s : SpotState) :
    (s.varC30 = none →
      (fetchSpotStep co (some p) s).varCm = s.varCm ∧
      (fetchSpotStep co (some p) s).varCmp = s.varCmp) ∧
    (∀ r : ℚ, s.varC30 = some r → r ≠ 0 →
      (fetchSpotStep co (some p) s).varCm = some (round2 (round2 p - r)) ∧
      (fetchSpotStep co (some p) s).varCmp
        = some (round1 (round2 (round2 p - r) / r * 100))) ∧
    (s.varC365 = none →
      (fetchSpotStep co (some p) s).varCy = s.varCy ∧
      (fetchSpotStep co (some p) s).varCyp = s.varCyp) ∧
    (∀ r : ℚ, s.varC365 = some r → r ≠ 0 →
      (fetchSpotStep co (some p) s).varCy = some (round2 (round2 p - r)) ∧
      (fetchSpotStep co (some p) s).varCyp
        = some (round1 (round2 (round2 p - r) / r * 100))) ∧
    ((s.varC1 = none ∨ s.varC1Prev = none) →
      (fetchSpotStep co (some p) s).varCd = s.varCd ∧
      (fetchSpotStep co (some p) s).varCdp = s.varCdp ∧
      (fetchSpotStep co (some p) s).varCdSession = s.varCdSession ∧
      (fetchSpotStep co (some p) s).varCdpSession = s.varCdpSession) ∧
    (∀ c1 cp : ℚ, s.varC1 = some c1 → s.varC1Prev = some cp → c1 ≠ 0 → cp ≠ 0 →
      ((fetchSpotStep co (some p) s).varMCon = 1 →
        (fetchSpotStep co (some p) s).varCd = some (round2 (round2 p - c1)) ∧
        (fetchSpotStep co (some p) s).varCdp
          = some (round1 (round2 (round2 p - c1) / c1 * 100))) ∧
      (co = false →
        (fetchSpotStep co (some p) s).varCd = some (round2 (round2 p - cp)) ∧
        (fetchSpotStep co (some p) s).varCdp
          = some (round1 (round2 (round2 p - cp) / cp * 100)))) := by
  obtain ⟨p1, p2, p3, p4, p5, p6, p7, p8, p9, p10, p11, p12, p13, p14, p15⟩ :=
    statusPhase_preserves co (round2 p) s
  set s1 := statusPhase co (round2 p) s with hs1
  set s2 := recordPhase (round2 p) s1 with hs2
  obtain ⟨q1, q2, q3, q4, q5, q6, q7, q8, q9, q10, q11, q12, q13, q14, q15⟩ :=
    sessionDeltaPhase_preserves co (round2 p) s2
  set s3 := sessionDeltaPhase co (round2 p) s2 with hs3
  obtain ⟨m1, m2, m3, m4, m5, m6, m7, m8, m9, m10, m11, m12, m13, m14, m15, m16⟩ :=
    monthYearPhase_preserves (round2 p) s3
  obtain ⟨mo30none, mo30some, mo365none, mo365some⟩ :=
    monthYearPhase_outputs (round2 p) s3
  obtain ⟨sessNone, sessSome⟩ := sessionDeltaPhase_outputs co (round2 p) s2
  have hstep : fetchSpotStep co (some p) s = monthYearPhase (round2 p) s3 := rfl
  -- the reference caches survive all three earlier phases
  have rC1 : s2.varC1 = s.varC1 := p1
  have rC1p : s2.varC1Prev = s.varC1Prev := p2
  have r30 : s3.varC30 = s.varC30 := by rw [q10]; exact p3
  have r365 : s3.varC365 = s.varC365 := by rw [q11]; exact p4
  refine ⟨?_, ?_, ?_, ?_, ?_, ?_⟩
  · intro h
    rw [hstep]
    obtain ⟨a, b⟩ := mo30none (by rw [r30]; exact h)
    rw [a, b, q12, q13]
    exact ⟨p7, p8⟩
  · intro r h hz
    rw [hstep]
    exact mo30some r (by rw [r30]; exact h) hz
  · intro h
    rw [hstep]
    obtain ⟨a, b⟩ := mo365none (by rw [r365]; exact h)
    rw [a, b, q14, q15]
    exact ⟨p9, p10⟩
  · intro r h hz
    rw [hstep]
    exact mo365some r (by rw [r365]; exact h) hz
  · intro h
    rw [hstep]
    have hid : s3 = s2 := by
      rw [hs3]
      exact sessNone (by rw [rC1, rC1p]; exact h)
    rw [m12, m13, m14, m15, hid]
    exact ⟨p5, p6, p11, p12⟩
  · intro c1 cp h1 h2 hz1 hz2
    obtain ⟨hopen, hclosed⟩ :=
      sessSome c1 cp (by rw [rC1]; exact h1) (by rw [rC1p]; exact h2) hz1 hz2
    constructor
    · intro hm
      rw [hstep] at hm ⊢
      rw [m1] at hm
      obtain ⟨a, b⟩ := hopen (by rw [← q1]; exact hm)
      rw [m12, m13]
      exact ⟨a, b⟩
    · intro hco
      rw [hstep]
      have hm0 : s2.varMCon ≠ 1 := by
        rw [q1] at *
        show s1.varMCon ≠ 1
        rw [hs1, hco, statusPhase_closed]
        simp
      obtain ⟨a, b⟩ := hclosed hm0 hco
      rw [m12, m13]
      exact ⟨a, b⟩

/-! ## C5: timezone offset handling -/

/-- C5: `getEasternOffset` never consults the month or day of its
argument, so any two instants of the same calendar year — in particular
two instants on opposite sides of a daylight-saving transition — are
converted with one and the same offset.  Concretely, under the real 2024
America/New_York offset table, the code assigns 2024-07-15 the standard
offset 300 minutes although the offset in force at that instant is 240
minutes. -/
theorem C5_offset_is_year_constant :
    (∀ (tzOff : Nat × Nat × Nat → Int) (y m1 d1 m2 d2 : Nat),
      getEasternOffset tzOff (y, m1, d1) = getEasternOffset tzOff (y, m2, d2)) ∧
    getEasternOffset nyOffset2024 (2024, 6, 15) = 300 ∧
    nyOffset2024 (2024, 6, 15) = 240 ∧
    getEasternOffset nyOffset2024 (2024, 0, 15) = 300 ∧
    nyOffset2024 (2024, 0, 15) = 300 := by
  refine ⟨fun tzOff y m1 d1 m2 d2 => rfl, ?_, ?_, ?_, ?_⟩ <;> decide

/-! ## C10: the premium-factor curve -/

/-- Below (or at) the no-discount quantity the factor is exactly 35%. -/
theorem computeVarPf_le_one_eq (q : ℝ) (h : q ≤ 1) : computeVarPf q = 35 / 100 := by
  unfold computeVarPf varA varD
  rw [if_pos h]

/-- At (or beyond) the max-discount quantity the factor is exactly 15%. -/
theorem computeVarPf_ge_fifty_eq (q : ℝ) (h : 50 ≤ q) : computeVarPf q = 15 / 100 := by
  unfold computeVarPf varA varB varCq varD
  rw [if_neg (by linarith), if_pos h]

/-- Closed form of the factor strictly between the quantity bounds. -/
theorem computeVarPf_mid (q : ℝ) (h1 : 1 < q) (h2 : q < 50) :
    computeVarPf q = (15 + 20 * ((1 - (q - 1) / 49) ^ (2.2 : ℝ))) / 100 := by
  unfold computeVarPf varA varB varCq varD varX
  rw [if_neg (by linarith), if_neg (by linarith)]
  have h49 : (50 : ℝ) - 1 = 49 := by norm_num
  rw [h49]
  generalize (1 - (q - 1) / 49) ^ (2.2 : ℝ) = X
  ring

/-- Between the bounds the normalised base `1 - (q-1)/49` lies in `[0,1]`. -/
theorem computeVarPf_base_mem (q : ℝ) (h1 : 1 < q) (h2 : q < 50) :
    0 ≤ 1 - (q - 1) / 49 ∧ 1 - (q - 1) / 49 ≤ 1 := by
  constructor
  · have h : (q - 1) / 49 ≤ 1 := by
      rw [div_le_one (by norm_num)]
      linarith
    linarith
  · have h : 0 ≤ (q - 1) / 49 := div_nonneg (by linarith) (by norm_num)
    linarith

/-- The factor always lies in `[15/100, 35/100]`. -/
theorem computeVarPf_bounds (q : ℝ) :
    15 / 100 ≤ computeVarPf q ∧ computeVarPf q ≤ 35 / 100 := by
  rcases le_or_lt q 1 with h | h
  · rw [computeVarPf_le_one_eq q h]
    norm_num
  · rcases le_or_lt 50 q with h2 | h2
    · rw [computeVarPf_ge_fifty_eq q h2]
      norm_num
    · rw [computeVarPf_mid q h h2]
      obtain ⟨hx0, hx1⟩ := computeVarPf_base_mem q h h2
      have hr0 : 0 ≤ (1 - (q - 1) / 49) ^ (2.2 : ℝ) := Real.rpow_nonneg hx0 _
      have hr1 : (1 - (q - 1) / 49) ^ (2.2 : ℝ) ≤ 1 :=
        Real.rpow_le_one hx0 hx1 (by norm_num)
      constructor <;> linarith

/-- The factor is non-increasing in the quantity. -/
theorem computeVarPf_antitone (q q' : ℝ) (h : q ≤ q') :
    computeVarPf q' ≤ computeVarPf q := by
  rcases le_or_lt q' 1 with hq'1 | hq'1
  · rw [computeVarPf_le_one_eq q' hq'1, computeVarPf_le_one_eq q (le_trans h hq'1)]
  · rcases le_or_lt q 1 with hq1 | hq1
    · rw [computeVarPf_le_one_eq q hq1]
      exact (computeVarPf_bounds q').2
    · rcases le_or_lt 50 q with hq50 | hq50
      · rw [computeVarPf_ge_fifty_eq q hq50,
            computeVarPf_ge_fifty_eq q' (le_trans hq50 h)]
      · rcases le_or_lt 50 q' with hq'50 | hq'50
        · rw [computeVarPf_ge_fifty_eq q' hq'50]
          exact (computeVarPf_bounds q).1
        · rw [computeVarPf_mid q hq1 hq50, computeVarPf_mid q' hq'1 hq'50]
          obtain ⟨hx'0, -⟩ := computeVarPf_base_mem q' hq'1 hq'50
          have hxx' : 1 - (q' - 1) / 49 ≤ 1 - (q - 1) / 49 := by
            have hd : (q - 1) / 49 ≤ (q' - 1) / 49 :=
              div_le_div_of_nonneg_right (by linarith) (by norm_num)
            linarith
          have hr : (1 - (q' - 1) / 49) ^ (2.2 : ℝ)
              ≤ (1 - (q - 1) / 49) ^ (2.2 : ℝ) :=
            Real.rpow_le_rpow hx'0 hxx' (by norm_num)
          linarith

/-- C10: the premium factor lies in `[0.15, 0.35]` for every quantity,
equals `0.35` for every quantity ≤ 1, equals `0.15` for every quantity
≥ 50, and is monotonically non-increasing over the whole range. -/
theorem C10_premium_factor :
    (∀ q : ℝ, 0.15 ≤ computeVarPf q ∧ computeVarPf q ≤ 0.35) ∧
    (∀ q : ℝ, q ≤ 1 → computeVarPf q = 0.35) ∧
    (∀ q : ℝ, 50 ≤ q → computeVarPf q = 0.15) ∧
    (∀ q q' : ℝ, q ≤ q' → computeVarPf q' ≤ computeVarPf q) := by
  refine ⟨fun q => ?_, fun q h => ?_, fun q h => ?_,
          fun q q' h => computeVarPf_antitone q q' h⟩
  · have hb := computeVarPf_bounds q
    norm_num at hb ⊢
    exact hb
  · rw [computeVarPf_le_one_eq q h]
    norm_num
  · rw [computeVarPf_ge_fifty_eq q h]
    norm_num

end BarterHex
